import Mathlib

/-!
Shallow embedding of the RealEstate Platform backend (src/backend/server.py).

The MongoDB collections are modelled as Lean lists of records; `find_one`
becomes `List.find?`, `update_one` updates the first matching document,
`delete_one` removes the first matching document and `delete_many` filters.
Each HTTP handler becomes a Lean function of its request data, the verified
calling user (FastAPI injects it through `verify_token`), any values the
source obtains from non-deterministic sources (`uuid.uuid4()`,
`datetime.now()`, the mocked external collaborators of the spec) passed in
as explicit parameters, and the store.  A handler returns the
`Except`-wrapped response (`HErr` mirrors `HTTPException`) together with
the resulting store; all failure paths of the embedded handlers occur
before any write, exactly as the corresponding `raise` statements do.

Floating point data that no claim touches (coordinates, match scores) and
randomized payload fields (verification ids, CIN numbers) are elided.
Rents, which the source stores as Python floats but only ever compares
with `>=` / `<=`, are modelled as integers.
-/

/-! ### Generic list helpers (Mongo collection primitives) -/

/-- Update the first element satisfying `p` (Mongo `update_one`). -/
def updateOne (p : α → Bool) (f : α → α) : List α → List α
  | [] => []
  | x :: xs => if p x then f x :: xs else x :: updateOne p f xs

/-- Remove the first element satisfying `p` (Mongo `delete_one`). -/
def deleteOne (p : α → Bool) : List α → List α
  | [] => []
  | x :: xs => if p x then xs else x :: deleteOne p xs

/-! ### Python string primitives used by the token scheme and the filters -/

/-- Python `s.split("_")` on the underlying character list: an empty input
gives one empty field, every underscore starts a new field. -/
def splitUS : List Char → List (List Char)
  | [] => [[]]
  | c :: cs =>
    if c = '_' then [] :: splitUS cs
    else
      match splitUS cs with
      | [] => [[c]]
      | h :: t => (c :: h) :: t

/-- Python `token.split("_")`, producing strings. -/
def pySplit (s : String) : List String :=
  (splitUS s.data).map fun l => ⟨l⟩

/-- Boolean test that `pre` is an initial segment of `l`. -/
def chLeads : List Char → List Char → Bool
  | [], _ => true
  | _ :: _, [] => false
  | a :: as, b :: bs => a == b && chLeads as bs

/-- Python `s.startswith(pre)`. -/
def pyStartsWith (s pre : String) : Bool :=
  chLeads pre.data s.data

/-- Boolean substring test: does `needle` occur contiguously in `hay`?
Models a MongoDB `$regex` match for a pattern free of regex
metacharacters, which is how the source uses it (plain location text). -/
def containsSub (needle : List Char) : List Char → Bool
  | [] => needle.isEmpty
  | c :: t => chLeads needle (c :: t) || containsSub needle t

/-- Lower-case a string character-wise (the `$options: "i"` flag). -/
def lowerStr (s : String) : String :=
  ⟨s.data.map Char.toLower⟩

/-- Case-insensitive substring test (`$regex` with `$options: "i"`). -/
def iContains (hay pat : String) : Bool :=
  containsSub (lowerStr pat).data (lowerStr hay).data

/-- Strict lexicographic order on character lists, used to model the Mongo
sort on the ISO-8601 `created_at` strings. -/
def lexLt : List Char → List Char → Bool
  | [], [] => false
  | [], _ :: _ => true
  | _ :: _, [] => false
  | a :: as, b :: bs => if a < b then true else if b < a then false else lexLt as bs

/-- Insert into a list sorted descending by `key` (stable). -/
def insertDesc (key : α → String) (x : α) : List α → List α
  | [] => [x]
  | y :: ys => if lexLt (key y).data (key x).data then x :: y :: ys else y :: insertDesc key x ys

/-- Sort descending by `key`: Mongo `.sort(field, -1)`. -/
def sortDesc (key : α → String) : List α → List α
  | [] => []
  | x :: xs => insertDesc key x (sortDesc key xs)

/-- Python truthiness of an optional string (`if s:`): present and
non-empty. -/
def pyTruthy : Option String → Bool
  | none => false
  | some s => !(s == "")

/-! ### Helper functions of the source -/

/-- `hash_password`: the source computes an unsalted SHA-256 hex digest;
the digest function itself is an external primitive, modelled as an
uninterpreted tagging of the input (no claim depends on its value). -/
def hash_password (password : String) : String :=
  "sha256$" ++ password

/-- `generate_token`: `f"token_{user_id}_{int(time.time())}"`, with the
wall-clock reading passed in as `ts`. -/
def generate_token (user_id : String) (ts : Nat) : String :=
  "token_" ++ user_id ++ "_" ++ Nat.repr ts

/-! ### Data model -/

/-- Result of the mocked Karza Aadhaar verification (status + name; the
random verification id is elided). -/
structure AadhaarResult where
  status : String
  name : String
deriving Repr, DecidableEq

/-- Result of the mocked Karza PAN verification. -/
structure PanResult where
  status : String
  name : String
deriving Repr, DecidableEq

/-- Result of the mocked Karza face match (the float score is elided). -/
structure FaceMatchResult where
  status : String
deriving Repr, DecidableEq

/-- One document listed by the mocked DigiLocker fetch. -/
structure DigiDoc where
  type : String
  id : String
  status : String
deriving Repr, DecidableEq

/-- Result of the mocked DigiLocker document fetch. -/
structure DigilockerResult where
  documents : List DigiDoc
deriving Repr, DecidableEq

/-- Result of the mocked MCA employer verification.  The seeded sample
tenant's stored copy carries no `status` key, so that field is
optional. -/
structure EmployerResult where
  company_found : Bool
  company_name : Option String
  status : Option String := none
deriving Repr, DecidableEq

/-- The `kyc_results` audit payload persisted on a user.  The seeded
sample tenant carries no DigiLocker entry, so that field is optional. -/
structure KycResults where
  aadhaar_verification : AadhaarResult
  pan_verification : PanResult
  face_match : FaceMatchResult
  digilocker_docs : Option DigilockerResult
  employer_verification : Option EmployerResult
deriving Repr, DecidableEq

/-- A document of the `users` collection. -/
structure User where
  user_id : String
  email : String
  phone : String
  password : String
  user_type : String
  full_name : String
  profile_completed : Bool
  kyc_completed : Bool
  profile : List (String × String) := []
  kyc_results : Option KycResults := none
  kyc_updated_at : Option String := none
  created_at : String
deriving Repr, DecidableEq

/-- A document of the `properties` collection (coordinates and the
`google_location` payload, pure float/mock data, are elided). -/
structure Property where
  property_id : String
  owner_id : String
  title : String
  description : String
  property_type : String
  bhk : Option String := none
  area_size : Option String := none
  area_unit : Option String := none
  rent : Int
  location : String
  amenities : List String := []
  images : List String := []
  status : String
  created_at : String
  updated_at : Option String := none
deriving Repr, DecidableEq

/-- A document of the `property_interests` collection. -/
structure Interest where
  interest_id : String
  property_id : String
  tenant_id : String
  owner_id : String
  message : Option String
  status : String
  created_at : String
  responded_at : Option String := none
  responded_by : Option String := none
deriving Repr, DecidableEq

/-- The three MongoDB collections. -/
structure Store where
  users : List User
  properties : List Property
  property_interests : List Interest
deriving Repr, DecidableEq

/-- `HTTPException(status_code, detail)`. -/
structure HErr where
  status_code : Nat
  detail : String
deriving Repr, DecidableEq

/-! ### Request models (pydantic) -/

/-- `UserRegistration` request body. -/
structure UserRegistration where
  email : String
  phone : String
  password : String
  user_type : String
  full_name : String
deriving Repr, DecidableEq

/-- The digit characters of a phone string (`filter(str.isdigit, v)`). -/
def numericPhone (v : String) : List Char :=
  v.data.filter Char.isDigit

/-- The two pydantic validators of `UserRegistration`: the phone must hold
10 to 12 digits and the full name at most 40 characters (the source then
strips the name; validated payloads are taken as already stripped). -/
def validRegistration (r : UserRegistration) : Prop :=
  10 ≤ (numericPhone r.phone).length ∧ (numericPhone r.phone).length ≤ 12 ∧
    r.full_name.length ≤ 40

instance (r : UserRegistration) : Decidable (validRegistration r) := by
  unfold validRegistration; infer_instance

/-- `KYCDocuments` request body. -/
structure KYCDocuments where
  aadhaar_number : String
  pan_number : String
  selfie_image : String
  employer_name : Option String := none
deriving Repr, DecidableEq

/-- `PropertyInterest` request body. -/
structure PropertyInterest where
  property_id : String
  message : Option String := none
deriving Repr, DecidableEq

/-- `PropertyUpdate` request body; `none` plays the role of an unset field
(`exclude_unset=True`). -/
structure PropertyUpdate where
  title : Option String := none
  description : Option String := none
  property_type : Option String := none
  bhk : Option String := none
  area_size : Option String := none
  area_unit : Option String := none
  rent : Option Int := none
  location : Option String := none
  amenities : Option (List String) := none
  images : Option String := none
deriving Repr, DecidableEq

/-! ### Token verification -/

/-- `verify_token`: check the `token_` marker, split on underscores,
take the second field as the user id and look the user up. -/
def verify_token (token : String) (s : Store) : Except HErr User :=
  if !(pyStartsWith token "token_") then .error ⟨401, "Invalid token"⟩
  else
    let parts := pySplit token
    if parts.length < 3 then .error ⟨401, "Invalid token format"⟩
    else
      let user_id := (parts.get? 1).getD ""
      match s.users.find? (fun u => u.user_id == user_id) with
      | none => .error ⟨401, "User not found"⟩
      | some u => .ok u

/-! ### Registration -/

/-- The body of a successful registration response. -/
structure RegUserView where
  user_id : String
  email : String
  user_type : String
  full_name : String
deriving Repr, DecidableEq

/-- Response of `POST /api/auth/register`. -/
structure RegResponse where
  message : String
  token : String
  user : RegUserView
deriving Repr, DecidableEq

/-- `register_user`: reject duplicate email, then duplicate phone, then
insert the new user document.  `fresh_id` stands for `str(uuid.uuid4())`,
`ts` for `int(time.time())` and `now` for `datetime.now().isoformat()`. -/
def register_user (user_data : UserRegistration) (fresh_id : String) (ts : Nat)
    (now : String) (s : Store) : Except HErr RegResponse × Store :=
  if (s.users.find? (fun u => u.email == user_data.email)).isSome then
    (.error ⟨400, "User with this email already exists"⟩, s)
  else if (s.users.find? (fun u => u.phone == user_data.phone)).isSome then
    (.error ⟨400, "User with this phone number already exists"⟩, s)
  else
    let user_doc : User :=
      { user_id := fresh_id
        email := user_data.email
        phone := user_data.phone
        password := hash_password user_data.password
        user_type := user_data.user_type
        full_name := user_data.full_name
        profile_completed := false
        kyc_completed := false
        created_at := now }
    (.ok { message := "User registered successfully"
           token := generate_token fresh_id ts
           user := { user_id := fresh_id, email := user_data.email,
                     user_type := user_data.user_type, full_name := user_data.full_name } },
     { s with users := s.users ++ [user_doc] })

/-! ### Property update -/

/-- Simple `{"message": ...}` response. -/
structure MsgResponse where
  message : String
deriving Repr, DecidableEq

/-- The `$set` document built from `update_data.dict(exclude_unset=True)`
applied to a property (plus the `updated_at` stamp).  The `images` entry
of `PropertyUpdate` — a plain string in the source, unlike the string
list stored on the document — cannot be represented on the typed
document and is not applied; it still counts towards `updateNonempty`,
and no claim concerns image payloads. -/
def applyPropertyUpdate (u : PropertyUpdate) (now : String) (p : Property) : Property :=
  { p with
    title := (u.title).getD p.title
    description := (u.description).getD p.description
    property_type := (u.property_type).getD p.property_type
    bhk := match u.bhk with | some v => some v | none => p.bhk
    area_size := match u.area_size with | some v => some v | none => p.area_size
    area_unit := match u.area_unit with | some v => some v | none => p.area_unit
    rent := (u.rent).getD p.rent
    location := (u.location).getD p.location
    amenities := (u.amenities).getD p.amenities
    updated_at := some now }

/-- `if update_dict:` — at least one field was set. -/
def updateNonempty (u : PropertyUpdate) : Bool :=
  u.title.isSome || u.description.isSome || u.property_type.isSome || u.bhk.isSome ||
    u.area_size.isSome || u.area_unit.isSome || u.rent.isSome || u.location.isSome ||
    u.amenities.isSome || u.images.isSome

/-- `update_property`: 404 on unknown id, 403 whenever the caller's id is
not the stored `owner_id` (there is no admin bypass in this handler),
otherwise patch the set fields. -/
def update_property (property_id : String) (update_data : PropertyUpdate)
    (current_user : User) (now : String) (s : Store) : Except HErr MsgResponse × Store :=
  match s.properties.find? (fun p => p.property_id == property_id) with
  | none => (.error ⟨404, "Property not found"⟩, s)
  | some property_doc =>
    if !(property_doc.owner_id == current_user.user_id) then
      (.error ⟨403, "Not authorized to update this property"⟩, s)
    else
      let s1 :=
        if updateNonempty update_data then
          { s with properties :=
              (updateOne (fun p => p.property_id == property_id)
                (applyPropertyUpdate update_data now) s.properties) }
        else s
      (.ok ⟨"Property updated successfully"⟩, s1)

/-! ### KYC pipeline -/

/-- Response of `POST /api/kyc/verify`. -/
structure KycResponse where
  message : String
  kyc_status : Bool
  verification_results : KycResults
deriving Repr, DecidableEq

/-- `verify_kyc`: only tenants may run it; the five collaborator results
(the spec's external mocked checks) enter as parameters `aadhaarRes`,
`panRes`, `faceRes`, `digiRes` and `empRes` (`empRes` is consulted only
when a truthy employer name was supplied).  The outcome is the
conjunction of the aadhaar, PAN and face-match statuses and is persisted
together with the full audit payload on the caller's user document. -/
def verify_kyc (kyc_data : KYCDocuments) (current_user : User)
    (aadhaarRes : AadhaarResult) (panRes : PanResult) (faceRes : FaceMatchResult)
    (digiRes : DigilockerResult) (empRes : EmployerResult) (now : String)
    (s : Store) : Except HErr KycResponse × Store :=
  if !(current_user.user_type == "tenant") then
    (.error ⟨403, "Only tenants can complete KYC"⟩, s)
  else
    let verification_results : KycResults :=
      { aadhaar_verification := aadhaarRes
        pan_verification := panRes
        face_match := faceRes
        digilocker_docs := some digiRes
        employer_verification :=
          if pyTruthy kyc_data.employer_name then some empRes else none }
    let kyc_status :=
      aadhaarRes.status == "verified" && panRes.status == "verified" &&
        faceRes.status == "match"
    let s1 : Store :=
      { s with users :=
          (updateOne (fun u => u.user_id == current_user.user_id)
            (fun u => { u with kyc_completed := kyc_status,
                               kyc_results := some verification_results,
                               kyc_updated_at := some now }) s.users) }
    (.ok { message := "KYC verification completed"
           kyc_status := kyc_status
           verification_results := verification_results }, s1)

/-! ### Interest workflow -/

/-- Response of `POST /api/properties/{id}/interest`. -/
structure InterestResponse where
  message : String
  interest_id : String
deriving Repr, DecidableEq

/-- `express_interest`: tenant role, then KYC flag, then property
existence; on success append a `pending` interest document. -/
def express_interest (property_id : String) (interest_data : PropertyInterest)
    (current_user : User) (fresh_id : String) (now : String) (s : Store) :
    Except HErr InterestResponse × Store :=
  if !(current_user.user_type == "tenant") then
    (.error ⟨403, "Only tenants can express interest"⟩, s)
  else if !current_user.kyc_completed then
    (.error ⟨400, "Complete KYC verification first"⟩, s)
  else
    match s.properties.find? (fun p => p.property_id == property_id) with
    | none => (.error ⟨404, "Property not found"⟩, s)
    | some property_doc =>
      let interest_doc : Interest :=
        { interest_id := fresh_id
          property_id := property_id
          tenant_id := current_user.user_id
          owner_id := property_doc.owner_id
          message := interest_data.message
          status := "pending"
          created_at := now }
      (.ok { message := "Interest expressed successfully", interest_id := fresh_id },
       { s with property_interests := s.property_interests ++ [interest_doc] })

/-- `respond_to_interest`: owner/dealer role, interest existence, then
ownership; the update writes the caller-supplied `response` string into
`status` unconditionally — there is no check of the current status nor of
the supplied value. -/
def respond_to_interest (interest_id : String) (response : String)
    (current_user : User) (now : String) (s : Store) : Except HErr MsgResponse × Store :=
  if !(current_user.user_type == "owner" || current_user.user_type == "dealer") then
    (.error ⟨403, "Only owners and dealers can respond to interests"⟩, s)
  else
    match s.property_interests.find? (fun i => i.interest_id == interest_id) with
    | none => (.error ⟨404, "Interest not found"⟩, s)
    | some interest_doc =>
      if !(interest_doc.owner_id == current_user.user_id) then
        (.error ⟨403, "Not authorized to respond to this interest"⟩, s)
      else
        (.ok ⟨"Interest " ++ response ++ " successfully"⟩,
         { s with property_interests :=
             (updateOne (fun i => i.interest_id == interest_id)
               (fun i => { i with status := response,
                                  responded_at := some now,
                                  responded_by := some current_user.user_id })
               s.property_interests) })

/-! ### Property listing / search -/

/-- The `{"$gte": ..., "$lte": ...}` sub-document for the `rent` key. -/
structure RentCond where
  gte : Option Int := none
  lte : Option Int := none
deriving Repr, DecidableEq

/-- The Mongo filter document `get_properties` builds. -/
structure PropFilter where
  status : Option String := none
  owner_id : Option String := none
  location : Option String := none
  rent : Option RentCond := none
  property_type : Option String := none
deriving Repr, DecidableEq

/-- Evaluation of the filter document against one property document
(Mongo query semantics: every present key must match; the `location` key
is a case-insensitive `$regex`, modelled as substring containment for the
metacharacter-free patterns the application sends). -/
def matchesFilter (f : PropFilter) (p : Property) : Bool :=
  (match f.status with | none => true | some v => p.status == v) &&
  (match f.owner_id with | none => true | some v => p.owner_id == v) &&
  (match f.location with | none => true | some v => iContains p.location v) &&
  (match f.rent with
   | none => true
   | some rc =>
     (match rc.gte with | none => true | some m => m ≤ p.rent) &&
     (match rc.lte with | none => true | some m => p.rent ≤ m)) &&
  (match f.property_type with | none => true | some v => p.property_type == v)

/-- The filter-construction stage of `get_properties`, line by line:
base `{"status": "active"}`; owner scoping when the caller is an
owner/dealer and no truthy `user_type` was passed; then location,
`min_rent` (fresh `rent` sub-document), `max_rent`
(`filters.setdefault("rent", {})`), and `property_type` guarded by
Python truthiness and the `"all"` sentinel. -/
def buildPropertyFilters (current_user : User) (user_type location : Option String)
    (min_rent max_rent : Option Int) (property_type : Option String) : PropFilter :=
  let f0 : PropFilter := { status := some "active" }
  let f1 :=
    if (current_user.user_type == "owner" || current_user.user_type == "dealer")
        && !(pyTruthy user_type) then
      { f0 with owner_id := some current_user.user_id }
    else f0
  let f2 := if pyTruthy location then { f1 with location := location } else f1
  let f3 :=
    match min_rent with
    | some m => { f2 with rent := some { gte := some m } }
    | none => f2
  let f4 :=
    match max_rent with
    | some m => { f3 with rent := some { f3.rent.getD {} with lte := some m } }
    | none => f3
  match property_type with
  | some pt => if !(pt == "") && !(pt == "all") then { f4 with property_type := some pt } else f4
  | none => f4

/-- Response of `GET /api/properties`. -/
structure PropertiesResponse where
  properties : List Property
deriving Repr, DecidableEq

/-- `get_properties`: build the filter document and run the query. -/
def get_properties (user_type location : Option String) (min_rent max_rent : Option Int)
    (property_type : Option String) (current_user : User) (s : Store) : PropertiesResponse :=
  { properties :=
      s.properties.filter
        (matchesFilter
          (buildPropertyFilters current_user user_type location min_rent max_rent property_type)) }

/-! ### Admin: delete user -/

/-- `delete_user`: admin only, no self-deletion; `delete_one` on the user
and `delete_many` cascades on properties and interests. -/
def delete_user (user_id : String) (current_user : User) (s : Store) :
    Except HErr MsgResponse × Store :=
  if !(current_user.user_type == "admin") then
    (.error ⟨403, "Admin access required"⟩, s)
  else if user_id == current_user.user_id then
    (.error ⟨400, "Cannot delete your own admin account"⟩, s)
  else
    match s.users.find? (fun u => u.user_id == user_id) with
    | none => (.error ⟨404, "User not found"⟩, s)
    | some user =>
      (.ok ⟨"User " ++ user.full_name ++ " deleted successfully"⟩,
       { users := deleteOne (fun u => u.user_id == user_id) s.users
         properties := s.properties.filter (fun p => !(p.owner_id == user_id))
         property_interests :=
           s.property_interests.filter
             (fun i => !(i.tenant_id == user_id || i.owner_id == user_id)) })

/-! ### Sample data seeding and database reset -/

/-- The `str(uuid.uuid4())` draws consumed by `seed_sample_data`. -/
structure SeedIds where
  adminId : String
  ownerId : String
  dealerId : String
  tenant1Id : String
  tenant2Id : String
  prop1Id : String
  prop2Id : String
  prop3Id : String
  prop4Id : String
  prop5Id : String
deriving Repr, DecidableEq

/-- The five sample users of `seed_sample_data` (dealer `areas_served`,
a list in the source, is stored comma-joined in the flat profile map). -/
def sample_users (ids : SeedIds) (now : String) : List User :=
  [{ user_id := ids.adminId
     email := "admin@realestate.com"
     phone := "+91-9999999999"
     password := hash_password "admin123"
     user_type := "admin"
     full_name := "Platform Administrator"
     profile_completed := true
     kyc_completed := true
     profile := [("full_name", "Platform Administrator"), ("phone", "+91-9999999999"),
                 ("address", "Admin Office, Cyber City, Gurugram")]
     created_at := now },
   { user_id := ids.ownerId
     email := "john.owner@realestate.com"
     phone := "+91-9876543201"
     password := hash_password "password123"
     user_type := "owner"
     full_name := "John Property Owner"
     profile_completed := true
     kyc_completed := true
     profile := [("full_name", "John Property Owner"), ("phone", "+91-9876543201"),
                 ("address", "123 Owner Street, Gurugram, Haryana")]
     created_at := now },
   { user_id := ids.dealerId
     email := "sarah.dealer@realestate.com"
     phone := "+91-9876543202"
     password := hash_password "password123"
     user_type := "dealer"
     full_name := "Sarah Real Estate Dealer"
     profile_completed := true
     kyc_completed := true
     profile := [("full_name", "Sarah Real Estate Dealer"), ("phone", "+91-9876543202"),
                 ("office_address", "456 Business Plaza, DLF Phase 1, Gurugram"),
                 ("areas_served", "Gurugram, Delhi, Noida, Faridabad")]
     created_at := now },
   { user_id := ids.tenant1Id
     email := "alex.tenant@realestate.com"
     phone := "+91-9876543203"
     password := hash_password "password123"
     user_type := "tenant"
     full_name := "Alex Tenant User"
     profile_completed := true
     kyc_completed := true
     profile := [("full_name", "Alex Tenant User"), ("phone", "+91-9876543203"),
                 ("current_address", "789 Tenant Colony, Sector 45, Gurugram"),
                 ("permanent_address", "321 Home Town, Delhi"),
                 ("employment_type", "salaried"), ("monthly_income", "75000-100000")]
     kyc_results := some
       { aadhaar_verification := { status := "verified", name := "Alex Tenant User" }
         pan_verification := { status := "verified", name := "Alex Tenant User" }
         face_match := { status := "match" }
         digilocker_docs := none
         employer_verification := some
           { company_found := true, company_name := some "Infosys Limited" } }
     created_at := now },
   { user_id := ids.tenant2Id
     email := "priya.tenant@realestate.com"
     phone := "+91-9876543204"
     password := hash_password "password123"
     user_type := "tenant"
     full_name := "Priya Tenant"
     profile_completed := true
     kyc_completed := false
     profile := [("full_name", "Priya Tenant"), ("phone", "+91-9876543204"),
                 ("current_address", "101 Tech Park, Sector 62, Gurugram"),
                 ("permanent_address", "567 Village Road, Delhi"),
                 ("employment_type", "self_employed"), ("monthly_income", "30000-75000")]
     created_at := now }]

/-- The five sample properties; their `owner_id` fields are the ids the
source recovers through `find_one({"user_type": "owner"})` and
`find_one({"user_type": "dealer"})`, which resolve to the sample owner
and dealer just inserted. -/
def sample_properties (ids : SeedIds) (now : String) : List Property :=
  [{ property_id := ids.prop1Id
     owner_id := ids.ownerId
     title := "Adani Oysters Grande - 3BHK Premium Apartment"
     description := "Luxury 3BHK apartment in prestigious Adani Oysters Grande with world-class amenities, spacious rooms, and prime location in Sector 102, Gurugram."
     property_type := "apartment"
     bhk := some "3"
     area_size := some "1850"
     area_unit := some "sqft"
     rent := 45000
     location := "Adani Oysters Grande, Sector 102, Gurugram, Haryana"
     amenities := ["Swimming Pool", "Gym", "Parking", "Security", "Club House", "Garden"]
     images := []
     status := "active"
     created_at := now },
   { property_id := ids.prop2Id
     owner_id := ids.ownerId
     title := "ATS Triumph - 2BHK Modern Apartment"
     description := "Beautiful 2BHK apartment in ATS Triumph with contemporary design, excellent ventilation, and great connectivity to Delhi NCR."
     property_type := "apartment"
     bhk := some "2"
     area_size := some "1250"
     area_unit := some "sqft"
     rent := 32000
     location := "ATS Triumph, Sector 104, Gurugram, Haryana"
     amenities := ["Gym", "Parking", "Wi-Fi Ready", "Security", "Power Backup"]
     images := []
     status := "active"
     created_at := now },
   { property_id := ids.prop3Id
     owner_id := ids.dealerId
     title := "Emaar Palm Hills - 4BHK Luxury Villa"
     description := "Spacious 4BHK villa in premium Emaar Palm Hills with private garden, modern amenities, and serene environment perfect for families."
     property_type := "house"
     bhk := some "4"
     area_size := some "2800"
     area_unit := some "sqft"
     rent := 75000
     location := "Emaar Palm Hills, Sector 77, Gurugram, Haryana"
     amenities := ["Private Garden", "Swimming Pool", "Club House", "Parking", "Security", "Gym"]
     images := []
     status := "active"
     created_at := now },
   { property_id := ids.prop4Id
     owner_id := ids.dealerId
     title := "Emaar Digi Homes - 1BHK Smart Apartment"
     description := "Modern 1BHK smart apartment in Emaar Digi Homes with IoT features, optimal for working professionals seeking connectivity and convenience."
     property_type := "apartment"
     bhk := some "1"
     area_size := some "650"
     area_unit := some "sqft"
     rent := 22000
     location := "Emaar Digi Homes, Sector 62, Gurugram, Haryana"
     amenities := ["Smart Home Features", "Wi-Fi", "Gym", "Parking", "Security"]
     images := []
     status := "active"
     created_at := now },
   { property_id := ids.prop5Id
     owner_id := ids.ownerId
     title := "DLF Park Place - 3BHK Premium Apartment"
     description := "Elegant 3BHK apartment in DLF Park Place with panoramic city views, premium finishes, and access to exclusive amenities."
     property_type := "apartment"
     bhk := some "3"
     area_size := some "1950"
     area_unit := some "sqft"
     rent := 55000
     location := "DLF Park Place, Sector 54, Gurugram, Haryana"
     amenities := ["Swimming Pool", "Gym", "Club House", "Parking", "Security", "Shopping Mall"]
     images := []
     status := "active"
     created_at := now }]

/-- `seed_sample_data`: a no-op when any user exists, otherwise clear the
collections and insert the sample users and properties. -/
def seed_sample_data (ids : SeedIds) (now : String) (s : Store) : Store :=
  if s.users.length > 0 then s
  else
    { users := sample_users ids now
      properties := sample_properties ids now
      property_interests := [] }

/-- Response of `POST /api/admin/reset-database`. -/
structure ResetResponse where
  message : String
  users_count : Nat
  properties_count : Nat
deriving Repr, DecidableEq

/-- `reset_database`: the source handler declares no security dependency,
so the request's `Authorization` header — modelled here as the `auth`
argument — is never consulted and no role is checked.  All three
collections are emptied with `delete_many({})` and the sample data is
re-seeded. -/
def reset_database (auth : Option String) (ids : SeedIds) (now : String) (s : Store) :
    Except HErr ResetResponse × Store :=
  let _ := auth
  let cleared : Store := { s with users := [], properties := [], property_interests := [] }
  let s1 := seed_sample_data ids now cleared
  (.ok { message := "Database reset and re-seeded successfully"
         users_count := s1.users.length
         properties_count := s1.properties.length }, s1)

/-! ### Admin read views -/

/-- A user document as projected by `get_all_users`
(`{"_id": 0, "password": 0}`). -/
structure UserView where
  user_id : String
  email : String
  phone : String
  user_type : String
  full_name : String
  profile_completed : Bool
  kyc_completed : Bool
  profile : List (String × String)
  kyc_results : Option KycResults
  kyc_updated_at : Option String
  created_at : String
deriving Repr, DecidableEq

/-- Project a user document for `get_all_users`: every field but the
password. -/
def userView (u : User) : UserView :=
  { user_id := u.user_id, email := u.email, phone := u.phone, user_type := u.user_type,
    full_name := u.full_name, profile_completed := u.profile_completed,
    kyc_completed := u.kyc_completed, profile := u.profile, kyc_results := u.kyc_results,
    kyc_updated_at := u.kyc_updated_at, created_at := u.created_at }

/-- The summary statistics block of `get_all_users`, computed over the
projected user list exactly as the comprehensions do. -/
structure UserStats where
  total_users : Nat
  admins : Nat
  owners : Nat
  dealers : Nat
  tenants : Nat
  profile_completed : Nat
  kyc_completed : Nat
deriving Repr, DecidableEq

/-- Response of `GET /api/admin/users`. -/
structure AllUsersResponse where
  users : List UserView
  statistics : UserStats
deriving Repr, DecidableEq

/-- `get_all_users`: admin only; password-free projections sorted by
`created_at` descending, plus counting statistics. -/
def get_all_users (current_user : User) (s : Store) : Except HErr AllUsersResponse :=
  if !(current_user.user_type == "admin") then .error ⟨403, "Admin access required"⟩
  else
    let users := (sortDesc (fun u : User => u.created_at) s.users).map userView
    .ok { users := users
          statistics :=
            { total_users := users.length
              admins := (users.filter (fun u => u.user_type == "admin")).length
              owners := (users.filter (fun u => u.user_type == "owner")).length
              dealers := (users.filter (fun u => u.user_type == "dealer")).length
              tenants := (users.filter (fun u => u.user_type == "tenant")).length
              profile_completed := (users.filter (fun u => u.profile_completed)).length
              kyc_completed := (users.filter (fun u => u.kyc_completed)).length } }

/-- The `owner_info` block `get_all_properties_admin` attaches. -/
structure OwnerInfo where
  name : String
  email : String
  user_type : String
deriving Repr, DecidableEq

/-- A property document with its optional `owner_info` enrichment. -/
structure PropertyAdminView where
  property : Property
  owner_info : Option OwnerInfo
deriving Repr, DecidableEq

/-- Response of `GET /api/admin/properties`. -/
structure PropertiesAdminResponse where
  properties : List PropertyAdminView
deriving Repr, DecidableEq

/-- `get_all_properties_admin`: admin only; all properties sorted by
`created_at` descending, each enriched with the owning user's name,
email and role (looked up with the password projected away). -/
def get_all_properties_admin (current_user : User) (s : Store) :
    Except HErr PropertiesAdminResponse :=
  if !(current_user.user_type == "admin") then .error ⟨403, "Admin access required"⟩
  else
    .ok { properties :=
            (sortDesc (fun p : Property => p.created_at) s.properties).map fun p =>
              { property := p
                owner_info :=
                  (s.users.find? (fun u => u.user_id == p.owner_id)).map fun owner =>
                    { name := owner.full_name, email := owner.email,
                      user_type := owner.user_type } } }

/-- A user document as projected by `get_recent_activity`
(`{"_id": 0, "password": 0, "profile": 0}`). -/
structure UserActivityView where
  user_id : String
  email : String
  phone : String
  user_type : String
  full_name : String
  profile_completed : Bool
  kyc_completed : Bool
  kyc_results : Option KycResults
  kyc_updated_at : Option String
  created_at : String
deriving Repr, DecidableEq

/-- Project a user document for `get_recent_activity`: no password and no
profile. -/
def userActivityView (u : User) : UserActivityView :=
  { user_id := u.user_id, email := u.email, phone := u.phone, user_type := u.user_type,
    full_name := u.full_name, profile_completed := u.profile_completed,
    kyc_completed := u.kyc_completed, kyc_results := u.kyc_results,
    kyc_updated_at := u.kyc_updated_at, created_at := u.created_at }

/-- Response of `GET /api/admin/recent-activity`. -/
structure RecentActivityResponse where
  recent_users : List UserActivityView
  recent_properties : List Property
  recent_interests : List Interest
deriving Repr, DecidableEq

/-- `get_recent_activity`: the ten most recent users (password and
profile projected away), properties and interests.  The source performs
no role check in this handler; the verified caller is unused. -/
def get_recent_activity (_current_user : User) (s : Store) : RecentActivityResponse :=
  { recent_users :=
      ((sortDesc (fun u : User => u.created_at) s.users).take 10).map userActivityView
    recent_properties := (sortDesc (fun p : Property => p.created_at) s.properties).take 10
    recent_interests :=
      (sortDesc (fun i : Interest => i.created_at) s.property_interests).take 10 }

/-! ### General lemmas about the collection and string primitives -/

/-- A list is an initial segment of itself extended by anything. -/
theorem chLeads_append (l r : List Char) : chLeads l (l ++ r) = true := by
  induction l with
  | nil => rfl
  | cons a as ih => simp [chLeads, ih]

/-- `splitUS` never produces an empty field list. -/
theorem splitUS_ne_nil (l : List Char) : splitUS l ≠ [] := by
  cases l with
  | nil => simp [splitUS]
  | cons c cs =>
    by_cases h : c = '_'
    · simp [splitUS, h]
    · simp only [splitUS, if_neg h]
      cases splitUS cs <;> simp

/-- Splitting a list that opens with an underscore-free segment `l`
followed by an underscore peels off exactly `l`. -/
theorem splitUS_append (l r : List Char) (h : '_' ∉ l) :
    splitUS (l ++ '_' :: r) = l :: splitUS r := by
  induction l with
  | nil => simp [splitUS]
  | cons c cs ih =>
    have hc : ¬ c = '_' := fun e => h (e ▸ List.mem_cons_self c cs)
    have hcs : '_' ∉ cs := fun m => h (List.mem_cons_of_mem c m)
    simp only [List.cons_append, splitUS, if_neg hc, List.append_eq]
    rw [ih hcs]

/-- If `x` is the first match of `p` and `f` keeps `p` true on `x`, then
after `updateOne p f` the first match of `p` is `f x`. -/
theorem find?_updateOne (p : α → Bool) (f : α → α) (l : List α) (x : α)
    (hfind : l.find? p = some x) (hf : p (f x) = true) :
    (updateOne p f l).find? p = some (f x) := by
  induction l with
  | nil => simp at hfind
  | cons y ys ih =>
    by_cases hy : p y = true
    · have hxy : x = y := by
        rw [List.find?_cons_of_pos _ hy] at hfind
        exact (Option.some_inj.mp hfind).symm
      subst hxy
      simp [updateOne, hy, List.find?_cons_of_pos _ hf]
    · rw [List.find?_cons_of_neg _ hy] at hfind
      have hyb : p y = false := by simpa using hy
      simp [updateOne, hyb, List.find?_cons_of_neg, ih hfind]

/-- If the keys `f` are pairwise distinct, deleting the first document
with key `a` leaves no document with key `a`. -/
theorem find?_deleteOne_eq_none (f : α → String) (a : String) (l : List α)
    (hnd : (l.map f).Nodup) :
    (deleteOne (fun x => f x == a) l).find? (fun x => f x == a) = none := by
  induction l with
  | nil => rfl
  | cons y ys ih =>
    have hnd2 := hnd
    rw [List.map_cons, List.nodup_cons] at hnd2
    by_cases hy : (f y == a) = true
    · have hya : f y = a := by simpa using hy
      have : ∀ x ∈ ys, ¬ ((fun x => f x == a) x = true) := by
        intro x hx hxa
        exact hnd2.1 (hya ▸ (by simpa using hxa) ▸ List.mem_map_of_mem f hx)
      simp only [deleteOne, if_pos hy]
      exact List.find?_eq_none.mpr this
    · have hyb : (f y == a) = false := by simpa using hy
      simp only [deleteOne, hyb, Bool.false_eq_true, if_false]
      rw [List.find?_cons_of_neg _ (by simp [hyb])]
      exact ih hnd2.2

/-- `find?` over a mapped list, for a predicate the map preserves. -/
theorem find?_map_invariant (g : α → α) (p : α → Bool) (l : List α)
    (hp : ∀ x, p (g x) = p x) :
    (l.map g).find? p = (l.find? p).map g := by
  induction l with
  | nil => rfl
  | cons y ys ih =>
    by_cases hy : p y = true
    · simp [List.find?_cons_of_pos, hy, hp y]
    · have hyb : p y = false := by simpa using hy
      rw [List.map_cons, List.find?_cons_of_neg _ (by simp [hp y, hyb]),
        List.find?_cons_of_neg _ (by simp [hyb]), ih]

/-- `insertDesc` commutes with a map that preserves the sort key. -/
theorem insertDesc_map (key : α → String) (g : α → α) (x : α) (l : List α)
    (hk : ∀ a, key (g a) = key a) :
    insertDesc key (g x) (l.map g) = (insertDesc key x l).map g := by
  induction l with
  | nil => rfl
  | cons y ys ih =>
    simp only [List.map_cons, insertDesc, hk]
    by_cases h : lexLt (key y).data (key x).data = true
    · simp [h]
    · have hb : lexLt (key y).data (key x).data = false := by simpa using h
      simp [hb, ih]

/-- `sortDesc` commutes with a map that preserves the sort key. -/
theorem sortDesc_map (key : α → String) (g : α → α) (l : List α)
    (hk : ∀ a, key (g a) = key a) :
    sortDesc key (l.map g) = (sortDesc key l).map g := by
  induction l with
  | nil => rfl
  | cons y ys ih => simp only [List.map_cons, sortDesc, ih, insertDesc_map key g y _ hk]

/-- The empty pattern is a substring of everything. -/
theorem containsSub_nil (hay : List Char) : containsSub [] hay = true := by
  cases hay <;> simp [containsSub, chLeads, List.isEmpty]

/-- The empty location pattern matches every location. -/
theorem iContains_empty (hay : String) : iContains hay "" = true := by
  simpa [iContains, lowerStr] using containsSub_nil (hay.data.map Char.toLower)

/-! ### Concrete fixtures used by witnesses and counterexamples -/

/-- A sample property owner. -/
def fxOwner : User :=
  { user_id := "o1"
    email := "owner@example.com"
    phone := "+91-9000000001"
    password := hash_password "pw1"
    user_type := "owner"
    full_name := "Olivia Owner"
    profile_completed := true
    kyc_completed := true
    created_at := "2024-01-01T08:00:00" }

/-- A sample platform administrator. -/
def fxAdmin : User :=
  { user_id := "a1"
    email := "admin@example.com"
    phone := "+91-9000000002"
    password := hash_password "pw2"
    user_type := "admin"
    full_name := "Ada Admin"
    profile_completed := true
    kyc_completed := true
    created_at := "2024-01-01T09:00:00" }

/-- A sample KYC-verified tenant. -/
def fxTenant : User :=
  { user_id := "t1"
    email := "tenant@example.com"
    phone := "+91-9000000003"
    password := hash_password "pw3"
    user_type := "tenant"
    full_name := "Tina Tenant"
    profile_completed := true
    kyc_completed := true
    created_at := "2024-01-01T10:00:00" }

/-- A sample tenant who has not completed KYC. -/
def fxTenantNoKyc : User :=
  { user_id := "t2"
    email := "tenant2@example.com"
    phone := "+91-9000000004"
    password := hash_password "pw4"
    user_type := "tenant"
    full_name := "Théo Tenant"
    profile_completed := true
    kyc_completed := false
    created_at := "2024-01-01T11:00:00" }

/-- Three active sample properties of `fxOwner` with rents 10000, 20000
and 30000. -/
def fxProp1 : Property :=
  { property_id := "p1"
    owner_id := "o1"
    title := "Budget Flat"
    description := "A one bedroom flat"
    property_type := "apartment"
    rent := 10000
    location := "Sector 10, Gurugram"
    status := "active"
    created_at := "2024-01-02T08:00:00" }

/-- Second sample property, rent 20000. -/
def fxProp2 : Property :=
  { property_id := "p2"
    owner_id := "o1"
    title := "Mid Range Flat"
    description := "A two bedroom flat"
    property_type := "apartment"
    rent := 20000
    location := "Sector 20, Gurugram"
    status := "active"
    created_at := "2024-01-02T09:00:00" }

/-- Third sample property, rent 30000. -/
def fxProp3 : Property :=
  { property_id := "p3"
    owner_id := "o1"
    title := "Premium Flat"
    description := "A three bedroom flat"
    property_type := "apartment"
    rent := 30000
    location := "Sector 30, Gurugram"
    status := "active"
    created_at := "2024-01-02T10:00:00" }

/-- An interest of `fxTenant` in `fxProp2` that has already been
approved (a terminal state). -/
def fxInterestApproved : Interest :=
  { interest_id := "i1"
    property_id := "p2"
    tenant_id := "t1"
    owner_id := "o1"
    message := some "still interested"
    status := "approved"
    created_at := "2024-01-03T08:00:00" }

/-- The fixture store. -/
def fxStore : Store :=
  { users := [fxAdmin, fxOwner, fxTenant, fxTenantNoKyc]
    properties := [fxProp1, fxProp2, fxProp3]
    property_interests := [fxInterestApproved] }

/-- The audit payload `verify_kyc` builds from given collaborator
results. -/
def auditOf (d : KYCDocuments) (a : AadhaarResult) (pn : PanResult)
    (fm : FaceMatchResult) (dg : DigilockerResult) (em : EmployerResult) : KycResults :=
  { aadhaar_verification := a
    pan_verification := pn
    face_match := fm
    digilocker_docs := some dg
    employer_verification := if pyTruthy d.employer_name then some em else none }

/-- **C1.**  For every KYC verification run by the pipeline on a tenant,
the persisted `kyc_completed` flag equals the conjunction of exactly the
three sub-check results — aadhaar status `"verified"`, PAN status
`"verified"`, face-match status `"match"` — whatever the DigiLocker
listing `dg` and employer check `em` return (neither appears in the
outcome), while both are persisted in the `kyc_results` audit record
(the employer entry exactly when an employer name was supplied). -/
theorem kyc_outcome_is_and_of_three_checks
    (d : KYCDocuments) (u : User) (a : AadhaarResult) (pn : PanResult)
    (fm : FaceMatchResult) (dg : DigilockerResult) (em : EmployerResult)
    (now : String) (s : Store)
    (hrole : u.user_type = "tenant")
    (hfind : s.users.find? (fun v => v.user_id == u.user_id) = some u) :
    (verify_kyc d u a pn fm dg em now s).1 = Except.ok
        { message := "KYC verification completed"
          kyc_status := a.status == "verified" && pn.status == "verified" && fm.status == "match"
          verification_results := auditOf d a pn fm dg em } ∧
    (verify_kyc d u a pn fm dg em now s).2.users.find? (fun v => v.user_id == u.user_id) =
      some { u with
             kyc_completed := a.status == "verified" && pn.status == "verified" && fm.status == "match"
             kyc_results := some (auditOf d a pn fm dg em)
             kyc_updated_at := some now } := by
  have hb : (u.user_type == "tenant") = true := by simp [hrole]
  constructor
  · simp [verify_kyc, hb, auditOf]
  · have h2 := find?_updateOne (fun v : User => v.user_id == u.user_id)
      (fun v => { v with
                  kyc_completed := a.status == "verified" && pn.status == "verified" && fm.status == "match"
                  kyc_results := some (auditOf d a pn fm dg em)
                  kyc_updated_at := some now }) s.users u hfind (by simp)
    simpa [verify_kyc, hb, auditOf] using h2

/-- Witness for C1: the hypotheses hold and the conclusion evaluates on
the fixture tenant with concrete collaborator results. -/
theorem kyc_outcome_witness :
    fxTenant.user_type = "tenant" ∧
    fxStore.users.find? (fun v => v.user_id == fxTenant.user_id) = some fxTenant ∧
    (verify_kyc ⟨"1234", "ABCDE", "selfie", some "Infosys Limited"⟩ fxTenant
        ⟨"verified", "Tina Tenant"⟩ ⟨"verified", "Tina Tenant"⟩ ⟨"no_match"⟩
        ⟨[⟨"aadhaar", "AADHAAR123", "available"⟩]⟩
        ⟨true, some "Infosys Limited", some "active"⟩ "2024-02-01T00:00:00" fxStore).2.users.find?
        (fun v => v.user_id == fxTenant.user_id) =
      some { fxTenant with
             kyc_completed := false
             kyc_results := some (auditOf ⟨"1234", "ABCDE", "selfie", some "Infosys Limited"⟩
               ⟨"verified", "Tina Tenant"⟩ ⟨"verified", "Tina Tenant"⟩ ⟨"no_match"⟩
               ⟨[⟨"aadhaar", "AADHAAR123", "available"⟩]⟩ ⟨true, some "Infosys Limited", some "active"⟩)
             kyc_updated_at := some "2024-02-01T00:00:00" } := by
  refine ⟨rfl, by decide, ?_⟩
  have h := (kyc_outcome_is_and_of_three_checks ⟨"1234", "ABCDE", "selfie", some "Infosys Limited"⟩
    fxTenant ⟨"verified", "Tina Tenant"⟩ ⟨"verified", "Tina Tenant"⟩ ⟨"no_match"⟩
    ⟨[⟨"aadhaar", "AADHAAR123", "available"⟩]⟩ ⟨true, some "Infosys Limited", some "active"⟩
    "2024-02-01T00:00:00" fxStore rfl (by decide)).2
  simpa using h

/-- Propositional equality of `Except` values is decidable when it is on
both components; used to evaluate handler results in witnesses. -/
instance [DecidableEq ε] [DecidableEq α] : DecidableEq (Except ε α) := fun x y =>
  match x, y with
  | .error a, .error b => decidable_of_iff (a = b) (by simp)
  | .error _, .ok _ => isFalse (fun h => Except.noConfusion h)
  | .ok _, .error _ => isFalse (fun h => Except.noConfusion h)
  | .ok a, .ok b => decidable_of_iff (a = b) (by simp)

/-- Counterexample to **C2** as stated: on the fixture store the owner
responds `"undecided"` to interest `i1`, which is already in the terminal
state `"approved"`.  The call succeeds and rewrites the stored status to
`"undecided"` — a terminal interest is mutated, and to a value outside
`{pending, approved, rejected}`. -/
theorem respond_terminal_mutates_counterexample :
    fxInterestApproved.status = "approved" ∧
    (respond_to_interest "i1" "undecided" fxOwner "2024-02-02T00:00:00" fxStore).1 =
      Except.ok ⟨"Interest undecided successfully"⟩ ∧
    (respond_to_interest "i1" "undecided" fxOwner "2024-02-02T00:00:00"
          fxStore).2.property_interests.find? (fun i => i.interest_id == "i1") =
      some { fxInterestApproved with
             status := "undecided"
             responded_at := some "2024-02-02T00:00:00"
             responded_by := some "o1" } ∧
    ¬ ("undecided" = "pending" ∨ "undecided" = "approved" ∨ "undecided" = "rejected") := by
  refine ⟨rfl, by decide, by decide, by decide⟩

/-- **C2** (amended).  For every `respond` call: any failure (role check,
unknown interest, ownership check) leaves the store unchanged; a
successful call is possible only for a caller of role owner/dealer whose
id equals the interest's recorded `owner_id`, and it overwrites the
interest's status with the caller-supplied `response` string
unconditionally — whatever the current status (terminal ones included)
and whatever the supplied value — touching no other collection. -/
theorem respond_owner_only_and_overwrites (interest_id response : String)
    (u : User) (now : String) (s : Store) :
    (∀ e, (respond_to_interest interest_id response u now s).1 = Except.error e →
      (respond_to_interest interest_id response u now s).2 = s) ∧
    (∀ out, (respond_to_interest interest_id response u now s).1 = Except.ok out →
      (u.user_type = "owner" ∨ u.user_type = "dealer") ∧
      ∀ i, s.property_interests.find? (fun j => j.interest_id == interest_id) = some i →
        i.owner_id = u.user_id ∧
        (respond_to_interest interest_id response u now s).2.property_interests.find?
            (fun j => j.interest_id == interest_id) =
          some { i with status := response, responded_at := some now,
                        responded_by := some u.user_id } ∧
        (respond_to_interest interest_id response u now s).2.users = s.users ∧
        (respond_to_interest interest_id response u now s).2.properties = s.properties) := by
  by_cases hrole : (u.user_type == "owner" || u.user_type == "dealer") = true
  · cases hfind : s.property_interests.find? (fun j => j.interest_id == interest_id) with
    | none =>
      refine ⟨fun e he => by simp [respond_to_interest, hrole, hfind], fun out hout => ?_⟩
      simp [respond_to_interest, hrole, hfind] at hout
    | some i =>
      by_cases hown : (i.owner_id == u.user_id) = true
      · refine ⟨fun e he => ?_, fun out hout => ?_⟩
        · simp [respond_to_interest, hrole, hfind, hown] at he
        · refine ⟨by simpa using hrole, fun j hj => ?_⟩
          have hij : j = i := by
            injection hj with h2
            exact h2.symm
          subst hij
          have hupd := find?_updateOne (fun k : Interest => k.interest_id == interest_id)
            (fun k => { k with status := response, responded_at := some now,
                               responded_by := some u.user_id })
            s.property_interests j hfind (by simpa using List.find?_some hfind)
          refine ⟨by simpa using hown, ?_, ?_, ?_⟩
          · simpa [respond_to_interest, hrole, hfind, hown] using hupd
          · simp [respond_to_interest, hrole, hfind, hown]
          · simp [respond_to_interest, hrole, hfind, hown]
      · refine ⟨fun e he => by simp [respond_to_interest, hrole, hfind, hown], fun out hout => ?_⟩
        simp [respond_to_interest, hrole, hfind, hown] at hout
  · refine ⟨fun e he => by simp [respond_to_interest, hrole], fun out hout => ?_⟩
    simp [respond_to_interest, hrole] at hout

/-- Witness for the amended C2: the owner approves the fixture interest;
the success branch of the theorem applies with every hypothesis
discharged concretely. -/
theorem respond_owner_only_witness :
    (fxOwner.user_type = "owner" ∨ fxOwner.user_type = "dealer") ∧
    (fxInterestApproved.owner_id = fxOwner.user_id ∧
      (respond_to_interest "i1" "rejected" fxOwner "2024-02-02T01:00:00"
          fxStore).2.property_interests.find? (fun j => j.interest_id == "i1") =
        some { fxInterestApproved with
               status := "rejected"
               responded_at := some "2024-02-02T01:00:00"
               responded_by := some "o1" } ∧
      (respond_to_interest "i1" "rejected" fxOwner "2024-02-02T01:00:00" fxStore).2.users =
        fxStore.users ∧
      (respond_to_interest "i1" "rejected" fxOwner "2024-02-02T01:00:00" fxStore).2.properties =
        fxStore.properties) := by
  have h := (respond_owner_only_and_overwrites "i1" "rejected" fxOwner
    "2024-02-02T01:00:00" fxStore).2 ⟨"Interest rejected successfully"⟩ (by decide)
  exact ⟨h.1, by simpa using h.2 fxInterestApproved (by decide)⟩

/-- Counterexample to **C3** as stated: registering with the (pydantic-
valid) payload whose `user_type` is `"superhero"` succeeds against the
fixture store and persists a user whose role is `"superhero"`, outside
`{owner, dealer, tenant, admin}`. -/
theorem register_unknown_role_counterexample :
    validRegistration ⟨"new@example.com", "+91-9000000099", "pw9", "superhero", "New User"⟩ ∧
    (register_user ⟨"new@example.com", "+91-9000000099", "pw9", "superhero", "New User"⟩
        "u9" 1700000000 "2024-02-04T00:00:00" fxStore).2.users =
      fxStore.users ++
        [{ user_id := "u9"
           email := "new@example.com"
           phone := "+91-9000000099"
           password := hash_password "pw9"
           user_type := "superhero"
           full_name := "New User"
           profile_completed := false
           kyc_completed := false
           created_at := "2024-02-04T00:00:00" }] ∧
    ¬ ("superhero" = "owner" ∨ "superhero" = "dealer" ∨ "superhero" = "tenant" ∨
       "superhero" = "admin") := by
  refine ⟨by decide, by decide, by decide⟩

/-- **C3** (amended).  Registration never validates `user_type`: whenever
the email and phone are unused, it creates exactly one new user whose
`user_type` is the supplied string verbatim — so a `user_type` outside
`{owner, dealer, tenant, admin}` yields a user record with exactly that
role. -/
theorem register_stores_supplied_role (r : UserRegistration) (fresh_id : String)
    (ts : Nat) (now : String) (s : Store)
    (hv : validRegistration r)
    (he : s.users.find? (fun u => u.email == r.email) = none)
    (hp : s.users.find? (fun u => u.phone == r.phone) = none) :
    (register_user r fresh_id ts now s).2.users =
      s.users ++
        [{ user_id := fresh_id
           email := r.email
           phone := r.phone
           password := hash_password r.password
           user_type := r.user_type
           full_name := r.full_name
           profile_completed := false
           kyc_completed := false
           created_at := now }] := by
  have _ := hv
  simp [register_user, he, hp]

/-- Witness for the amended C3: the `"superhero"` registration on the
fixture store, with every hypothesis discharged concretely. -/
theorem register_stores_supplied_role_witness :
    (register_user ⟨"new2@example.com", "+91-9000000098", "pw8", "superhero", "New User"⟩
        "u8" 1700000001 "2024-02-04T01:00:00" fxStore).2.users =
      fxStore.users ++
        [{ user_id := "u8"
           email := "new2@example.com"
           phone := "+91-9000000098"
           password := hash_password "pw8"
           user_type := "superhero"
           full_name := "New User"
           profile_completed := false
           kyc_completed := false
           created_at := "2024-02-04T01:00:00" }] :=
  register_stores_supplied_role
    ⟨"new2@example.com", "+91-9000000098", "pw8", "superhero", "New User"⟩
    "u8" 1700000001 "2024-02-04T01:00:00" fxStore (by decide) (by decide) (by decide)

/-- Counterexample to **C7** as stated: the fixture admin, who does not
own property `p1`, receives `403 Forbidden` from the update handler —
the source has no admin bypass in `update_property` (admin property
management goes through the separate delete endpoint). -/
theorem update_property_admin_forbidden_counterexample :
    fxAdmin.user_type = "admin" ∧
    ¬ fxProp1.owner_id = fxAdmin.user_id ∧
    update_property "p1" {} fxAdmin "2024-02-05T00:00:00" fxStore =
      (Except.error ⟨403, "Not authorized to update this property"⟩, fxStore) := by
  refine ⟨rfl, by decide, by decide⟩

/-- **C7** (amended).  Property update fails with `404 NotFound` when the
property id is unknown, and fails with `403 Forbidden` exactly when the
caller's id differs from the stored `owner_id` — admins included; the
owning user never receives `Forbidden`.  Every failure leaves the store
unchanged. -/
theorem update_property_owner_only (property_id : String) (upd : PropertyUpdate)
    (u : User) (now : String) (s : Store) :
    (s.properties.find? (fun p => p.property_id == property_id) = none →
      update_property property_id upd u now s =
        (Except.error ⟨404, "Property not found"⟩, s)) ∧
    (∀ pr, s.properties.find? (fun p => p.property_id == property_id) = some pr →
      (¬ pr.owner_id = u.user_id →
        update_property property_id upd u now s =
          (Except.error ⟨403, "Not authorized to update this property"⟩, s)) ∧
      (pr.owner_id = u.user_id →
        (update_property property_id upd u now s).1 =
          Except.ok ⟨"Property updated successfully"⟩)) := by
  refine ⟨fun hnone => ?_, fun pr hpr => ⟨fun hne => ?_, fun heq => ?_⟩⟩
  · simp [update_property, hnone]
  · simp [update_property, hpr, hne]
  · by_cases hne : updateNonempty upd = true <;>
      simp [update_property, hpr, heq, hne]

/-- Witness for the amended C7: the 404 branch on an unknown id and the
owner success branch, both on the fixture store. -/
theorem update_property_owner_only_witness :
    update_property "nope" {} fxOwner "2024-02-05T01:00:00" fxStore =
      (Except.error ⟨404, "Property not found"⟩, fxStore) ∧
    (update_property "p1" {} fxOwner "2024-02-05T01:00:00" fxStore).1 =
      Except.ok ⟨"Property updated successfully"⟩ := by
  refine ⟨(update_property_owner_only "nope" {} fxOwner "2024-02-05T01:00:00" fxStore).1
    (by decide), ?_⟩
  exact ((update_property_owner_only "p1" {} fxOwner "2024-02-05T01:00:00" fxStore).2
    fxProp1 (by decide)).2 rfl

/-- **C6.**  For every `express_interest` call: a non-tenant caller fails
with `403 Forbidden`; a tenant whose KYC flag is false fails with the
KYC-required error (`400 Complete KYC verification first`) regardless of
the property and the store; a KYC-complete tenant referencing an unknown
property fails with `404 NotFound`; otherwise exactly one new interest
with status `"pending"` is appended.  Every failure returns the store
unchanged, so no record is left behind. -/
theorem express_interest_preconditions (property_id : String) (idata : PropertyInterest)
    (u : User) (fresh_id now : String) (s : Store) :
    (¬ u.user_type = "tenant" →
      express_interest property_id idata u fresh_id now s =
        (Except.error ⟨403, "Only tenants can express interest"⟩, s)) ∧
    (u.user_type = "tenant" → u.kyc_completed = false →
      express_interest property_id idata u fresh_id now s =
        (Except.error ⟨400, "Complete KYC verification first"⟩, s)) ∧
    (u.user_type = "tenant" → u.kyc_completed = true →
      s.properties.find? (fun p => p.property_id == property_id) = none →
      express_interest property_id idata u fresh_id now s =
        (Except.error ⟨404, "Property not found"⟩, s)) ∧
    (∀ pr, u.user_type = "tenant" → u.kyc_completed = true →
      s.properties.find? (fun p => p.property_id == property_id) = some pr →
      express_interest property_id idata u fresh_id now s =
        (Except.ok ⟨"Interest expressed successfully", fresh_id⟩,
         { s with property_interests :=
             s.property_interests ++
               [{ interest_id := fresh_id
                  property_id := property_id
                  tenant_id := u.user_id
                  owner_id := pr.owner_id
                  message := idata.message
                  status := "pending"
                  created_at := now }] })) := by
  refine ⟨fun hrole => ?_, fun hrole hkyc => ?_, fun hrole hkyc hnone => ?_,
    fun pr hrole hkyc hpr => ?_⟩
  · simp [express_interest, hrole]
  · simp [express_interest, hrole, hkyc]
  · simp [express_interest, hrole, hkyc, hnone]
  · simp [express_interest, hrole, hkyc, hpr]

/-- Witness for C6: the KYC-gating branch on the non-KYC tenant (whatever
the property argument) and the success branch on the verified tenant,
both on the fixture store. -/
theorem express_interest_preconditions_witness :
    express_interest "p1" ⟨"p1", none⟩ fxTenantNoKyc "i7" "2024-02-06T00:00:00" fxStore =
      (Except.error ⟨400, "Complete KYC verification first"⟩, fxStore) ∧
    express_interest "p1" ⟨"p1", some "hello"⟩ fxTenant "i8" "2024-02-06T01:00:00" fxStore =
      (Except.ok ⟨"Interest expressed successfully", "i8"⟩,
       { fxStore with property_interests :=
           fxStore.property_interests ++
             [{ interest_id := "i8"
                property_id := "p1"
                tenant_id := "t1"
                owner_id := "o1"
                message := some "hello"
                status := "pending"
                created_at := "2024-02-06T01:00:00" }] }) := by
  refine ⟨(express_interest_preconditions "p1" ⟨"p1", none⟩ fxTenantNoKyc "i7"
    "2024-02-06T00:00:00" fxStore).2.1 rfl rfl, ?_⟩
  have h := (express_interest_preconditions "p1" ⟨"p1", some "hello"⟩ fxTenant "i8"
    "2024-02-06T01:00:00" fxStore).2.2.2 fxProp1 rfl rfl (by decide)
  simpa using h

/-- **C5.**  The reset endpoint consults neither the `Authorization`
header (`auth`, never read — the handler declares no security
dependency) nor any role: for every prior store state and every caller it
deletes all users, properties and interests and leaves exactly the five
sample users and five sample properties, reporting success. -/
theorem reset_database_unauthenticated_wipes (auth : Option String) (ids : SeedIds)
    (now : String) (s : Store) :
    reset_database auth ids now s =
      (Except.ok ⟨"Database reset and re-seeded successfully", 5, 5⟩,
       { users := sample_users ids now
         properties := sample_properties ids now
         property_interests := [] }) ∧
    reset_database auth ids now s = reset_database none ids now s := by
  exact ⟨rfl, rfl⟩

/-- **C9.**  For every registration with valid input: a payload reusing
an existing user's email fails with the duplicate-email
`400 ValidationFailed` error and leaves the store unchanged; with a fresh
email but a reused phone it fails with the duplicate-phone error, store
unchanged; and whatever branch is taken, global uniqueness of emails and
phones is preserved. -/
theorem register_uniqueness (r : UserRegistration) (fresh_id : String) (ts : Nat)
    (now : String) (s : Store) (hv : validRegistration r) :
    ((∃ u ∈ s.users, u.email = r.email) →
      register_user r fresh_id ts now s =
        (Except.error ⟨400, "User with this email already exists"⟩, s)) ∧
    ((¬ ∃ u ∈ s.users, u.email = r.email) → (∃ u ∈ s.users, u.phone = r.phone) →
      register_user r fresh_id ts now s =
        (Except.error ⟨400, "User with this phone number already exists"⟩, s)) ∧
    ((s.users.map User.email).Nodup → (s.users.map User.phone).Nodup →
      ((register_user r fresh_id ts now s).2.users.map User.email).Nodup ∧
      ((register_user r fresh_id ts now s).2.users.map User.phone).Nodup) := by
  have _ := hv
  refine ⟨fun hdup => ?_, fun hno hdup => ?_, fun hne hnp => ?_⟩
  · obtain ⟨u, hu, hue⟩ := hdup
    have hs : (s.users.find? (fun v => v.email == r.email)).isSome = true := by
      rw [List.find?_isSome]
      exact ⟨u, hu, by simp [hue]⟩
    simp [register_user, hs]
  · have hnone : s.users.find? (fun v => v.email == r.email) = none := by
      rw [List.find?_eq_none]
      intro x hx hxe
      exact hno ⟨x, hx, by simpa using hxe⟩
    obtain ⟨u, hu, hup⟩ := hdup
    have hs : (s.users.find? (fun v => v.phone == r.phone)).isSome = true := by
      rw [List.find?_isSome]
      exact ⟨u, hu, by simp [hup]⟩
    simp [register_user, hnone, hs]
  · by_cases he : (s.users.find? (fun v => v.email == r.email)).isSome = true
    · simpa [register_user, he] using ⟨hne, hnp⟩
    · have he2 : s.users.find? (fun v => v.email == r.email) = none := by
        cases h : s.users.find? (fun v => v.email == r.email) with
        | none => rfl
        | some u => rw [h] at he; simp at he
      by_cases hp : (s.users.find? (fun v => v.phone == r.phone)).isSome = true
      · simpa [register_user, he2, hp] using ⟨hne, hnp⟩
      · have hp2 : s.users.find? (fun v => v.phone == r.phone) = none := by
          cases h : s.users.find? (fun v => v.phone == r.phone) with
          | none => rfl
          | some u => rw [h] at hp; simp at hp
        have hememail : r.email ∉ s.users.map User.email := by
          intro hmem
          obtain ⟨u, hu, hue⟩ := List.mem_map.mp hmem
          exact absurd (by simp [hue] : (u.email == r.email) = true)
            (by simpa using List.find?_eq_none.mp he2 u hu)
        have hmemphone : r.phone ∉ s.users.map User.phone := by
          intro hmem
          obtain ⟨u, hu, hup⟩ := List.mem_map.mp hmem
          exact absurd (by simp [hup] : (u.phone == r.phone) = true)
            (by simpa using List.find?_eq_none.mp hp2 u hu)
        constructor
        · simp only [register_user, he2, hp2, List.find?_eq_none] at *
          simp [List.map_append, List.nodup_append, hne, hememail]
        · simp only [register_user, he2, hp2, List.find?_eq_none] at *
          simp [List.map_append, List.nodup_append, hnp, hmemphone]

/-- Witness for C9: reusing the fixture tenant's email is rejected with
the duplicate-email error, and a fresh registration preserves the
uniqueness of emails and phones on the fixture store. -/
theorem register_uniqueness_witness :
    register_user ⟨"tenant@example.com", "+91-9111111111", "pwx", "tenant", "Dup"⟩
        "u7" 5 "2024-02-07T00:00:00" fxStore =
      (Except.error ⟨400, "User with this email already exists"⟩, fxStore) ∧
    (((register_user ⟨"fresh@example.com", "+91-9111111112", "pwy", "tenant", "Fresh"⟩
        "u6" 6 "2024-02-07T01:00:00" fxStore).2.users.map User.email).Nodup ∧
     ((register_user ⟨"fresh@example.com", "+91-9111111112", "pwy", "tenant", "Fresh"⟩
        "u6" 6 "2024-02-07T01:00:00" fxStore).2.users.map User.phone).Nodup) := by
  constructor
  · exact (register_uniqueness ⟨"tenant@example.com", "+91-9111111111", "pwx", "tenant", "Dup"⟩
      "u7" 5 "2024-02-07T00:00:00" fxStore (by decide)).1 ⟨fxTenant, by decide, rfl⟩
  · exact (register_uniqueness ⟨"fresh@example.com", "+91-9111111112", "pwy", "tenant", "Fresh"⟩
      "u6" 6 "2024-02-07T01:00:00" fxStore (by decide)).2.2 (by decide) (by decide)

/-- Splitting a generated token yields the literal `"token"` marker, the
user id (underscore-free, as every UUID4 id the program generates is),
and the timestamp fields. -/
theorem pySplit_generate_token (uid : String) (ts : Nat) (h : '_' ∉ uid.data) :
    pySplit (generate_token uid ts) = "token" :: uid :: pySplit (Nat.repr ts) := by
  have e1 : "token_".data = 't' :: 'o' :: 'k' :: 'e' :: 'n' :: '_' :: [] := rfl
  have e2 : "token".data = 't' :: 'o' :: 'k' :: 'e' :: 'n' :: [] := rfl
  have e3 : "_".data = ['_'] := rfl
  have hdata : (generate_token uid ts).data
      = "token".data ++ '_' :: (uid.data ++ '_' :: (Nat.repr ts).data) := by
    simp [generate_token, String.data_append, e1, e2, e3]
  have hsplit : splitUS (generate_token uid ts).data
      = "token".data :: uid.data :: splitUS (Nat.repr ts).data := by
    rw [hdata, splitUS_append _ _ (by decide), splitUS_append _ _ h]
  have m1 : (⟨"token".data⟩ : String) = "token" := rfl
  have m2 : (⟨uid.data⟩ : String) = uid := rfl
  simp [pySplit, hsplit, m1, m2]

/-- Every generated token starts with the `"token_"` marker. -/
theorem pyStartsWith_generate_token (uid : String) (ts : Nat) :
    pyStartsWith (generate_token uid ts) "token_" = true := by
  have hdata : (generate_token uid ts).data
      = "token_".data ++ (uid.data ++ ("_".data ++ (Nat.repr ts).data)) := by
    simp [generate_token, String.data_append]
  rw [pyStartsWith, hdata]
  exact chLeads_append _ _

/-- **C4.**  For every user id present in the store at verification time
(resolving, as ids are unique, to that user's record) the token produced
by `generate_token` verifies back to the same record; against any store
in which the id no longer resolves — in particular the store left by an
admin `delete_user` of that id — verification of the same token fails
with `401 Unauthenticated` (`"User not found"`).  The underscore-free id
hypothesis reflects that every id the program stores is a UUID4 string. -/
theorem token_roundtrip_and_deletion (s : Store) (u : User) (ts : Nat)
    (hid : '_' ∉ u.user_id.data)
    (hfind : s.users.find? (fun v => v.user_id == u.user_id) = some u) :
    verify_token (generate_token u.user_id ts) s = Except.ok u ∧
    (∀ s2 : Store, s2.users.find? (fun v => v.user_id == u.user_id) = none →
      verify_token (generate_token u.user_id ts) s2 =
        Except.error ⟨401, "User not found"⟩) ∧
    (∀ (adm : User) (out : MsgResponse) (s1 : Store),
      (s.users.map User.user_id).Nodup →
      delete_user u.user_id adm s = (Except.ok out, s1) →
      verify_token (generate_token u.user_id ts) s1 =
        Except.error ⟨401, "User not found"⟩) := by
  have hstart := pyStartsWith_generate_token u.user_id ts
  have hparts := pySplit_generate_token u.user_id ts hid
  have hlen : ¬ (pySplit (generate_token u.user_id ts)).length < 3 := by
    rw [hparts]
    have hpos : 0 < (pySplit (Nat.repr ts)).length := by
      apply List.length_pos.mpr
      simp only [pySplit, ne_eq, List.map_eq_nil_iff]
      exact splitUS_ne_nil _
    simp only [List.length_cons]
    omega
  have hget : ((pySplit (generate_token u.user_id ts)).get? 1).getD "" = u.user_id := by
    rw [hparts]; rfl
  have hvt : ∀ s2 : Store, verify_token (generate_token u.user_id ts) s2 =
      (match s2.users.find? (fun v => v.user_id == u.user_id) with
       | none => Except.error ⟨401, "User not found"⟩
       | some v => Except.ok v) := by
    intro s2
    simp only [verify_token, hstart, Bool.not_true, Bool.false_eq_true, if_false, hget,
      if_neg hlen]
  refine ⟨by rw [hvt s, hfind], fun s2 h2 => by rw [hvt s2, h2], ?_⟩
  intro adm out s1 hnd hdel
  have hs1 : s1.users = deleteOne (fun v => v.user_id == u.user_id) s.users := by
    simp only [delete_user] at hdel
    by_cases h1 : (adm.user_type == "admin") = true
    · simp only [h1, Bool.not_true, Bool.false_eq_true, if_false] at hdel
      by_cases h2 : (u.user_id == adm.user_id) = true
      · simp [h2] at hdel
      · simp only [h2, Bool.false_eq_true, if_false] at hdel
        cases hfu : s.users.find? (fun v => v.user_id == u.user_id) with
        | none => rw [hfu] at hdel; simp at hdel
        | some w =>
          rw [hfu] at hdel
          have := (Prod.mk.injEq _ _ _ _).mp hdel
          rw [← this.2]
    · simp [h1] at hdel
  have hnone : s1.users.find? (fun v => v.user_id == u.user_id) = none := by
    rw [hs1]
    exact find?_deleteOne_eq_none User.user_id u.user_id s.users hnd
  rw [hvt s1, hnone]

/-- Witness for C4: the fixture tenant's token verifies back to the
tenant; after the fixture admin deletes the tenant, the same token is
rejected with 401. -/
theorem token_roundtrip_witness :
    verify_token (generate_token "t1" 1700000000) fxStore = Except.ok fxTenant ∧
    verify_token (generate_token "t1" 1700000000)
        { users := [fxAdmin, fxOwner, fxTenantNoKyc]
          properties := [fxProp1, fxProp2, fxProp3]
          property_interests := [] } =
      Except.error ⟨401, "User not found"⟩ := by
  have h := token_roundtrip_and_deletion fxStore fxTenant 1700000000 (by decide) (by decide)
  refine ⟨h.1, ?_⟩
  exact h.2.2 fxAdmin ⟨"User Tina Tenant deleted successfully"⟩
    { users := [fxAdmin, fxOwner, fxTenantNoKyc]
      properties := [fxProp1, fxProp2, fxProp3]
      property_interests := [] } (by decide) (by decide)

/-- The filter document `get_properties` builds, written as one record:
always status `"active"`; owner scoping under the stated condition; the
location pattern only when truthy; a rent sub-document whenever at least
one bound is supplied, holding exactly the supplied bounds; the type
filter only for a type that is neither empty nor `"all"`. -/
theorem buildPropertyFilters_eq (u : User) (ut loc : Option String)
    (mn mx : Option Int) (pt : Option String) :
    buildPropertyFilters u ut loc mn mx pt =
      { status := some "active"
        owner_id :=
          if (u.user_type == "owner" || u.user_type == "dealer") && !(pyTruthy ut)
          then some u.user_id else none
        location := if pyTruthy loc then loc else none
        rent := match mn, mx with
                | none, none => none
                | _, _ => some ⟨mn, mx⟩
        property_type := match pt with
                         | some t => if !(t == "") && !(t == "all") then some t else none
                         | none => none } := by
  by_cases hsc : ((u.user_type == "owner" || u.user_type == "dealer") && !(pyTruthy ut)) = true <;>
  by_cases hloc : pyTruthy loc = true <;>
  cases mn <;> cases mx <;> cases pt <;>
  simp [buildPropertyFilters, hsc, hloc] <;> split <;> rename_i hcond <;> simp [hcond]

/-- The owner-scoping conjunct of the filter evaluation. -/
theorem ownerConj (x : Property) (b : Bool) (uid : String) :
    (match (if b then some uid else none) with
     | none => true
     | some v => x.owner_id == v) = (if b then x.owner_id == uid else true) := by
  cases b <;> simp

/-- The location conjunct: skipping the filter for a falsy pattern agrees
with unconditional substring matching, because the empty pattern matches
everything. -/
theorem locConj (x : Property) (loc : Option String) :
    (match (if pyTruthy loc then loc else none) with
     | none => true
     | some v => iContains x.location v) =
    (match loc with | none => true | some l => iContains x.location l) := by
  cases loc with
  | none => rfl
  | some l =>
    by_cases hl : (l == "") = true
    · have he : l = "" := by simpa using hl
      subst he
      simp [pyTruthy, iContains_empty]
    · simp [pyTruthy, hl]

/-- The rent conjunct: the staged `setdefault` construction of the rent
sub-document evaluates to the plain conjunction of the two inclusive
bounds. -/
theorem rentConj (x : Property) (mn mx : Option Int) :
    (match (match mn, mx with
            | none, none => (none : Option RentCond)
            | _, _ => some ⟨mn, mx⟩) with
     | none => true
     | some rc =>
       (match rc.gte with | none => true | some m => decide (m ≤ x.rent)) &&
       (match rc.lte with | none => true | some m => decide (x.rent ≤ m))) =
    ((match mn with | none => true | some m => decide (m ≤ x.rent)) &&
     (match mx with | none => true | some m => decide (x.rent ≤ m))) := by
  cases mn <;> cases mx <;> simp

/-- The type conjunct: the source disables the filter both for `"all"`
and for the empty string. -/
theorem ptConj (x : Property) (pt : Option String) :
    (match (match pt with
            | some t => if !(t == "") && !(t == "all") then some t else none
            | none => (none : Option String)) with
     | none => true
     | some v => x.property_type == v) =
    (match pt with
     | none => true
     | some t => if t == "all" || t == "" then true else x.property_type == t) := by
  cases pt with
  | none => rfl
  | some t =>
    by_cases h1 : (t == "") = true
    · simp [h1]
    · by_cases h2 : (t == "all") = true
      · simp [h1, h2]
      · simp [h1, h2]

/-- Pointwise evaluation of the constructed filter document. -/
theorem matchesFilter_build (u : User) (ut loc : Option String)
    (mn mx : Option Int) (pt : Option String) (x : Property) :
    matchesFilter (buildPropertyFilters u ut loc mn mx pt) x =
      (x.status == "active" &&
       (if (u.user_type == "owner" || u.user_type == "dealer") && !(pyTruthy ut)
        then x.owner_id == u.user_id else true) &&
       (match loc with | none => true | some l => iContains x.location l) &&
       (match mn with | none => true | some m => decide (m ≤ x.rent)) &&
       (match mx with | none => true | some m => decide (x.rent ≤ m)) &&
       (match pt with
        | none => true
        | some t => if t == "all" || t == "" then true else x.property_type == t)) := by
  rw [buildPropertyFilters_eq]
  simp only [matchesFilter]
  rw [ownerConj, locConj, rentConj, ptConj]
  simp [Bool.and_assoc]

/-- The filter semantics exactly as the claim words them (for comparison
with the code): active status, owner scoping, case-insensitive substring
location, inclusive rent bounds, and property-type equality disabled
only by the literal value `"all"`. -/
def specMatches (u : User) (user_type location : Option String)
    (min_rent max_rent : Option Int) (property_type : Option String) (p : Property) : Bool :=
  p.status == "active" &&
  (if (u.user_type == "owner" || u.user_type == "dealer") && !(pyTruthy user_type)
   then p.owner_id == u.user_id else true) &&
  (match location with | none => true | some l => iContains p.location l) &&
  (match min_rent with | none => true | some m => decide (m ≤ p.rent)) &&
  (match max_rent with | none => true | some m => decide (p.rent ≤ m)) &&
  (match property_type with
   | none => true
   | some t => if t == "all" then true else p.property_type == t)

/-- Counterexample to **C8** as stated: for the query with
`property_type = ""` (an empty but present query parameter), the code
disables the type filter (Python truthiness) and returns all three
active fixture properties, while the claim's semantics — equality unless
the value is the literal `"all"` — would return none of them. -/
theorem properties_filter_empty_type_counterexample :
    (get_properties none none none none (some "") fxTenant fxStore).properties =
      [fxProp1, fxProp2, fxProp3] ∧
    fxStore.properties.filter (specMatches fxTenant none none none none (some "")) = [] ∧
    ¬ ((get_properties none none none none (some "") fxTenant fxStore).properties =
        fxStore.properties.filter (specMatches fxTenant none none none none (some ""))) := by
  refine ⟨by decide, by decide, by decide⟩

/-- **C8** (amended).  For every property listing query the result is
exactly the active properties passing the conjunction of the owner
scoping, the case-insensitive location substring, the inclusive
`min_rent` lower bound, the inclusive `max_rent` upper bound (also when
both bounds are present together), and property-type equality — where
the type filter is disabled both by the literal value `"all"` and by an
empty value; in particular, over the fixture properties with rents
10000, 20000 and 30000, the query `min_rent=15000, max_rent=25000`
returns exactly the rent-20000 property. -/
theorem get_properties_characterization (ut loc : Option String)
    (mn mx : Option Int) (pt : Option String) (u : User) (s : Store) :
    (get_properties ut loc mn mx pt u s).properties =
      s.properties.filter (fun x =>
        x.status == "active" &&
        (if (u.user_type == "owner" || u.user_type == "dealer") && !(pyTruthy ut)
         then x.owner_id == u.user_id else true) &&
        (match loc with | none => true | some l => iContains x.location l) &&
        (match mn with | none => true | some m => decide (m ≤ x.rent)) &&
        (match mx with | none => true | some m => decide (x.rent ≤ m)) &&
        (match pt with
         | none => true
         | some t => if t == "all" || t == "" then true else x.property_type == t)) ∧
    (get_properties none none (some 15000) (some 25000) none fxTenant fxStore).properties =
      [fxProp2] := by
  refine ⟨?_, by decide⟩
  show (s.properties.filter (matchesFilter (buildPropertyFilters u ut loc mn mx pt))) = _
  have hfun : (matchesFilter (buildPropertyFilters u ut loc mn mx pt)) = fun x =>
      (x.status == "active" &&
       (if (u.user_type == "owner" || u.user_type == "dealer") && !(pyTruthy ut)
        then x.owner_id == u.user_id else true) &&
       (match loc with | none => true | some l => iContains x.location l) &&
       (match mn with | none => true | some m => decide (m ≤ x.rent)) &&
       (match mx with | none => true | some m => decide (x.rent ≤ m)) &&
       (match pt with
        | none => true
        | some t => if t == "all" || t == "" then true else x.property_type == t)) :=
    funext (matchesFilter_build u ut loc mn mx pt)
  rw [hfun]

/-- Rewrite one user's stored password digest with an arbitrary per-user
function, leaving every other field untouched. -/
def setPw (g : User → String) (u : User) : User :=
  { u with password := g u }

/-- Apply `setPw` across the whole user collection: the generic "change
any stored password digest" perturbation of a store. -/
def mapPw (g : User → String) (s : Store) : Store :=
  { s with users := s.users.map (setPw g) }

/-- **C10.**  Changing stored password digests arbitrarily (any per-user
rewriting `g`, applied to the store and to the verified caller record)
leaves the outputs of the three admin read views — all users, all
properties with owner info, recent activity — exactly unchanged:
password data never flows into these outputs. -/
theorem admin_views_password_noninterference (g : User → String) (u : User) (s : Store) :
    get_all_users (setPw g u) (mapPw g s) = get_all_users u s ∧
    get_all_properties_admin (setPw g u) (mapPw g s) = get_all_properties_admin u s ∧
    get_recent_activity (setPw g u) (mapPw g s) = get_recent_activity u s := by
  have hkey : ∀ x : User, (setPw g x).created_at = x.created_at := fun x => rfl
  have hsortu : sortDesc (fun v : User => v.created_at) (s.users.map (setPw g))
      = (sortDesc (fun v : User => v.created_at) s.users).map (setPw g) :=
    sortDesc_map _ _ _ hkey
  have hviews : (sortDesc (fun v : User => v.created_at) (s.users.map (setPw g))).map userView
      = (sortDesc (fun v : User => v.created_at) s.users).map userView := by
    rw [hsortu, List.map_map]
    rfl
  have hfind : ∀ pid : String,
      (s.users.map (setPw g)).find? (fun v => v.user_id == pid)
        = (s.users.find? (fun v => v.user_id == pid)).map (setPw g) :=
    fun pid => find?_map_invariant (setPw g) _ s.users (fun x => rfl)
  refine ⟨?_, ?_, ?_⟩
  · by_cases hadm : (u.user_type == "admin") = true
    · have h1 : ((setPw g u).user_type == "admin") = true := hadm
      simp only [get_all_users, mapPw, h1, hadm, Bool.not_true, Bool.false_eq_true, if_false]
      rw [hviews]
    · have h0 : (u.user_type == "admin") = false := by simpa using hadm
      have h1 : ((setPw g u).user_type == "admin") = false := h0
      simp only [get_all_users, mapPw, h1, h0, Bool.not_false, if_true]
  · by_cases hadm : (u.user_type == "admin") = true
    · have h1 : ((setPw g u).user_type == "admin") = true := hadm
      simp only [get_all_properties_admin, mapPw, h1, hadm, Bool.not_true,
        Bool.false_eq_true, if_false]
      refine congrArg _ (congrArg _ ?_)
      apply List.map_congr_left
      intro p _
      rw [hfind p.owner_id, Option.map_map]
      rfl
    · have h0 : (u.user_type == "admin") = false := by simpa using hadm
      have h1 : ((setPw g u).user_type == "admin") = false := h0
      simp only [get_all_properties_admin, mapPw, h1, h0, Bool.not_false, if_true]
  · simp only [get_recent_activity, mapPw]
    rw [hsortu, ← List.map_take, List.map_map]
    rfl
